import Mathlib

/-!
Shallow embedding of the Forecasting-Bot repository (file `forecasting.py`):
the data model, the completion client, the four prompt builders and the
pipeline orchestrator `run_pipeline`, together with theorems settling the
specification's claims.

The remote completion service is modelled by a call-indexed oracle
(`Nat → List Message → Except Err String`): call 0 is the classification
request, calls 1..4 the four forecaster requests, calls 5..6 the two judge
requests, call 7 the synthesis request.  `run_pipeline` additionally returns
the log of message lists it submitted, in submission order, so that claims
about which calls were issued can be stated.
-/

/-- A role-tagged chat message, the element type of every prompt. -/
structure Message where
  role : String
  content : String
deriving DecidableEq, Repr

/-- The `ForecastResult` dataclass returned by the pipeline. -/
structure ForecastResult where
  question_type : String
  forecasts : List String
  judge_feedback : List String
  supreme_decision : String
deriving DecidableEq, Repr

/-- The error kinds of the design: network timeout, non-success HTTP status
(carrying status and body text), a response body lacking the expected
first-choice-message-content shape, and an unknown question type in
forecaster-prompt construction (the `KeyError` of the lookup table). -/
inductive Err where
  | timeout
  | requestFailed (status : Nat) (body : String)
  | malformedResponse
  | unknownQuestionType (question_type : String)
deriving DecidableEq, Repr

/-- JSON values, the parsed body of an HTTP response (`response.json()`). -/
inductive Json where
  | null
  | bool (b : Bool)
  | num (n : Int)
  | str (s : String)
  | arr (elems : List Json)
  | obj (fields : List (String × Json))

/-- Dictionary subscription `data[key]`: succeeds only on an object holding
the key. -/
def Json.lookup : Json → String → Option Json
  | .obj fields, key => List.lookup key fields
  | _, _ => none

/-- List subscription `data[i]`: succeeds only on an array long enough. -/
def Json.index : Json → Nat → Option Json
  | .arr elems, i => elems.get? i
  | _, _ => none

/-- A JSON value usable as a Python `str` (so that `.strip()` applies). -/
def Json.asString : Json → Option String
  | .str s => some s
  | _ => none

/-- The extraction `data["choices"][0]["message"]["content"]` of
`LLMClient.complete`, as an Option-valued function: `none` models any of the
`KeyError` / `IndexError` / `TypeError` / `AttributeError` failures Python
raises when the body lacks the expected shape. -/
def firstChoiceContent (data : Json) : Option String :=
  (data.lookup "choices").bind (fun choices =>
    (choices.index 0).bind (fun choice =>
      (choice.lookup "message").bind (fun msg =>
        (msg.lookup "content").bind Json.asString)))

/-- An HTTP response: status code, raw body text, and parsed JSON body. -/
structure HttpResponse where
  status : Nat
  text : String
  body : Json

/-- Outcome of one network request: a response, or a timeout of the fixed
60-second bound. -/
inductive NetOutcome where
  | timeout
  | resp (r : HttpResponse)

def OPENROUTER_URL : String := "https://openrouter.ai/api/v1/chat/completions"

/-- Python `str.upper()`: uppercase every character. -/
def pyUpper (s : String) : String := ⟨s.data.map Char.toUpper⟩

/-- Python `str.strip()`: drop surrounding whitespace. -/
def pyStrip (s : String) : String :=
  ⟨((s.data.dropWhile Char.isWhitespace).reverse.dropWhile Char.isWhitespace).reverse⟩

/-- The completion client: credentials stored at construction plus the
derived headers (`LLMClient.__init__`). -/
structure LLMClient where
  api_key : String
  model : String
  headers : List (String × String)
deriving DecidableEq, Repr

/-- Constructor `LLMClient.__init__`: stores `api_key.strip()` and `model.strip()` and
builds the authorization and content-type headers from the stripped key. -/
def LLMClient.init (api_key model : String) : LLMClient :=
  ⟨pyStrip api_key, pyStrip model,
    [("Authorization", "Bearer " ++ pyStrip api_key),
     ("Content-Type", "application/json")]⟩

/-- The outbound request `client.post(OPENROUTER_URL, headers=..., json=...)`
issued by `LLMClient.complete`: url, headers, and the JSON payload fields
`model` and `messages`. -/
structure Request where
  url : String
  headers : List (String × String)
  model : String
  messages : List Message
deriving DecidableEq, Repr

/-- The request `LLMClient.complete` issues for a given message list. -/
def LLMClient.request (c : LLMClient) (messages : List Message) : Request :=
  ⟨OPENROUTER_URL, c.headers, c.model, messages⟩

/-- Method `response.raise_for_status()` raises on every non-2xx status:
httpx treats only 200–299 as success (redirects are not followed), and the
spec says any non-success status fails with `RequestFailed`. -/
def errorStatus (status : Nat) : Bool :=
  !(decide (200 ≤ status) && decide (status ≤ 299))

/-- Body of `LLMClient.complete` once a response arrived: raise on error
status, then return `data["choices"][0]["message"]["content"].strip()`,
failing with `malformedResponse` when the body lacks that shape. -/
def LLMClient.completeResp (c : LLMClient) (r : HttpResponse) :
    Except Err String :=
  if errorStatus r.status then .error (.requestFailed r.status r.text)
  else
    match firstChoiceContent r.body with
    | some content => .ok (pyStrip content)
    | none => .error .malformedResponse

/-- Method `LLMClient.complete` over a network outcome: a timeout fails with
`Err.timeout`, a response is processed by `completeResp`. -/
def LLMClient.complete (c : LLMClient) : NetOutcome → Except Err String
  | .timeout => .error .timeout
  | .resp r => c.completeResp r

/-- Builder `classification_prompt(title, context)`. -/
def classification_prompt (title context : String) : List Message :=
  [⟨"system",
     "Classify the forecasting question as exactly one of NUMERIC, BINARY, or MCQ. " ++
       "Use only the provided title and context. Reply with the label only."⟩,
   ⟨"user", "Title: " ++ title ++ "\nContext: " ++ context⟩]

/-- The lookup table of `forecaster_prompt`: the dict literal keyed by
question type, subscription modelled as an Option-valued function. -/
def forecaster_task_description (question_type : String) : Option String :=
  if question_type = "NUMERIC" then
    some "Provide a single numeric forecast (number only)."
  else if question_type = "BINARY" then
    some "Provide the probability that the answer is YES as a percentage between 0 and 100."
  else if question_type = "MCQ" then
    some "Provide probabilities for each option, ensuring they sum to 100%."
  else none

/-- Builder `forecaster_prompt(question_type, title, context)`: the dict subscription
raises (`unknownQuestionType`, the spec's name for the `KeyError`) when the
type is not one of the three keys. -/
def forecaster_prompt (question_type title context : String) :
    Except Err (List Message) :=
  match forecaster_task_description question_type with
  | none => .error (.unknownQuestionType question_type)
  | some task_description =>
    .ok [⟨"system",
           "You are an independent forecaster. " ++ task_description ++
             " Do not explain your answer."⟩,
         ⟨"user",
           "Question type: " ++ question_type ++ "\nTitle: " ++ title ++
             "\nContext: " ++ context⟩]

/-- The generator expression rendering numbered lines, shared by
`judge_prompt` (label `Forecaster`) and `supreme_prompt` (labels
`Forecaster` and `Judge`):
`"\n".join(f"{label} {i+1}: {item}" for i, item in enumerate(items))`. -/
def numberedLines (label : String) (items : List String) : String :=
  String.intercalate "\n"
    (items.enum.map (fun p => label ++ " " ++ toString (p.fst + 1) ++ ": " ++ p.snd))

/-- Builder `judge_prompt(question_type, title, context, forecasts)`. -/
def judge_prompt (question_type title context : String)
    (forecasts : List String) : List Message :=
  [⟨"system",
     "You are a judge evaluating multiple forecasts. " ++
       "Assess reasoning quality, identify inconsistencies or outliers, and suggest adjustments. " ++
       "Do not provide a final forecast."⟩,
   ⟨"user",
     "Question type: " ++ question_type ++ "\nTitle: " ++ title ++
       "\nContext: " ++ context ++ "\nForecasts:\n" ++
       numberedLines "Forecaster" forecasts⟩]

/-- Builder `supreme_prompt(question_type, title, context, forecasts, judge_feedback)`. -/
def supreme_prompt (question_type title context : String)
    (forecasts judge_feedback : List String) : List Message :=
  [⟨"system",
     "You are the Supreme Judge. Harmonize the forecasts using judge feedback. " ++
       "Respond in two short paragraphs: first explain reasoning, second present the final forecast. " ++
       "Use plain text only."⟩,
   ⟨"user",
     "Question type: " ++ question_type ++ "\nTitle: " ++ title ++
       "\nContext: " ++ context ++ "\nForecasts:\n" ++
       numberedLines "Forecaster" forecasts ++ "\nJudge feedback:\n" ++
       numberedLines "Judge" judge_feedback⟩]

/-- The classification-normalization step of `run_pipeline`: uppercase the
reply and substitute NUMERIC unless the result is one of the three labels. -/
def normalize_question_type (reply : String) : String :=
  let question_type := pyUpper reply
  if question_type = "NUMERIC" ∨ question_type = "BINARY" ∨ question_type = "MCQ" then
    question_type
  else "NUMERIC"

/-- Orchestrator `run_pipeline(api_key, model, title, context)` over a call-indexed
completion oracle.  Returns the pipeline outcome together with the log of
message lists submitted to the completion client, in submission order.
The nested matches mirror awaiting each task in list order: the first
failure in submission order propagates; the four forecaster tasks are all
created (hence logged) before the first is awaited, and no judge or
synthesis call is issued after a failure. -/
def run_pipeline (oracle : Nat → List Message → Except Err String)
    (api_key model title context : String) :
    Except Err ForecastResult × List (List Message) :=
  let cmsgs := classification_prompt title context
  match oracle 0 cmsgs with
  | .error e => (.error e, [cmsgs])
  | .ok raw =>
    let question_type := normalize_question_type raw
    match forecaster_prompt question_type title context with
    | .error e => (.error e, [cmsgs])
    | .ok fmsgs =>
      let flog := [cmsgs, fmsgs, fmsgs, fmsgs, fmsgs]
      match oracle 1 fmsgs with
      | .error e => (.error e, flog)
      | .ok f1 =>
        match oracle 2 fmsgs with
        | .error e => (.error e, flog)
        | .ok f2 =>
          match oracle 3 fmsgs with
          | .error e => (.error e, flog)
          | .ok f3 =>
            match oracle 4 fmsgs with
            | .error e => (.error e, flog)
            | .ok f4 =>
              let forecasts := [f1, f2, f3, f4]
              let jmsgs := judge_prompt question_type title context forecasts
              let jlog := flog ++ [jmsgs, jmsgs]
              match oracle 5 jmsgs with
              | .error e => (.error e, jlog)
              | .ok j1 =>
                match oracle 6 jmsgs with
                | .error e => (.error e, jlog)
                | .ok j2 =>
                  let judge_feedback := [j1, j2]
                  let smsgs := supreme_prompt question_type title context forecasts judge_feedback
                  let slog := jlog ++ [smsgs]
                  match oracle 7 smsgs with
                  | .error e => (.error e, slog)
                  | .ok supreme_decision =>
                    (.ok ⟨question_type, forecasts, judge_feedback, supreme_decision⟩, slog)

/-- A test-double oracle replaying a fixed script of outcomes by call index
(indices beyond the script time out). -/
def scriptOracle (script : List (Except Err String)) :
    Nat → List Message → Except Err String :=
  fun i _ => script.getD i (.error .timeout)

/-- Claim C1: with a test double returning, in call order, "BINARY", the
four forecasts "60%", "55%", "70%", "65%", the two judge strings, and any
synthesis string, `run_pipeline` returns the corresponding `ForecastResult`
with the synthesis string verbatim. -/
theorem run_pipeline_round_trip (s api_key model title context : String) :
    (run_pipeline
      (scriptOracle [.ok "BINARY", .ok "60%", .ok "55%", .ok "70%", .ok "65%",
        .ok "Forecast looks consistent.", .ok "Outlier at 70%.", .ok s])
      api_key model title context).fst =
    .ok ⟨"BINARY", ["60%", "55%", "70%", "65%"],
      ["Forecast looks consistent.", "Outlier at 70%."], s⟩ := by
  rfl

/-- Inversion of a successful pipeline run: the oracle answered all eight
calls, and the result and call log are determined by those answers. -/
theorem run_pipeline_ok_elim
    (oracle : Nat → List Message → Except Err String)
    (api_key model title context : String)
    (res : ForecastResult) (log : List (List Message))
    (h : run_pipeline oracle api_key model title context = (.ok res, log)) :
    ∃ raw fmsgs f1 f2 f3 f4 j1 j2 sd,
      oracle 0 (classification_prompt title context) = .ok raw ∧
      forecaster_prompt (normalize_question_type raw) title context = .ok fmsgs ∧
      oracle 1 fmsgs = .ok f1 ∧ oracle 2 fmsgs = .ok f2 ∧
      oracle 3 fmsgs = .ok f3 ∧ oracle 4 fmsgs = .ok f4 ∧
      oracle 5 (judge_prompt (normalize_question_type raw) title context [f1, f2, f3, f4]) = .ok j1 ∧
      oracle 6 (judge_prompt (normalize_question_type raw) title context [f1, f2, f3, f4]) = .ok j2 ∧
      oracle 7 (supreme_prompt (normalize_question_type raw) title context [f1, f2, f3, f4] [j1, j2]) = .ok sd ∧
      res = ⟨normalize_question_type raw, [f1, f2, f3, f4], [j1, j2], sd⟩ ∧
      log = [classification_prompt title context, fmsgs, fmsgs, fmsgs, fmsgs,
        judge_prompt (normalize_question_type raw) title context [f1, f2, f3, f4],
        judge_prompt (normalize_question_type raw) title context [f1, f2, f3, f4],
        supreme_prompt (normalize_question_type raw) title context [f1, f2, f3, f4] [j1, j2]] := by
  simp only [run_pipeline] at h
  split at h
  · simp at h
  rename_i raw h0
  split at h
  · simp at h
  rename_i fmsgs hf
  split at h
  · simp at h
  rename_i f1 h1
  split at h
  · simp at h
  rename_i f2 h2
  split at h
  · simp at h
  rename_i f3 h3
  split at h
  · simp at h
  rename_i f4 h4
  split at h
  · simp at h
  rename_i j1 h5
  split at h
  · simp at h
  rename_i j2 h6
  split at h
  · simp at h
  rename_i sd h7
  simp only [Prod.mk.injEq, Except.ok.injEq] at h
  obtain ⟨hres, hlog⟩ := h
  refine ⟨raw, fmsgs, f1, f2, f3, f4, j1, j2, sd, h0, hf, h1, h2, h3, h4, h5, h6, h7, hres.symm, ?_⟩
  simpa using hlog.symm

/-- Claim C2: a classification reply that, after stripping surrounding
whitespace, matches one of NUMERIC, BINARY, MCQ case-insensitively yields
that label (uppercased, stripped) as the question type; any other reply
yields NUMERIC; and a successful pipeline run's `question_type` is exactly
the normalization of the reply the completion client returned for call 0. -/
theorem question_type_normalization (reply : String) :
    ((pyUpper (pyStrip reply) = "NUMERIC" ∨ pyUpper (pyStrip reply) = "BINARY" ∨
        pyUpper (pyStrip reply) = "MCQ") →
      normalize_question_type (pyStrip reply) = pyUpper (pyStrip reply)) ∧
    (¬(pyUpper (pyStrip reply) = "NUMERIC" ∨ pyUpper (pyStrip reply) = "BINARY" ∨
        pyUpper (pyStrip reply) = "MCQ") →
      normalize_question_type (pyStrip reply) = "NUMERIC") ∧
    (∀ oracle api_key model title context res log raw,
      oracle 0 (classification_prompt title context) = Except.ok raw →
      run_pipeline oracle api_key model title context = (Except.ok res, log) →
      res.question_type = normalize_question_type raw) := by
  refine ⟨?_, ?_, ?_⟩
  · intro h
    simp only [normalize_question_type]
    rw [if_pos h]
  · intro h
    simp only [normalize_question_type]
    rw [if_neg h]
  · intro oracle api_key model title context res log raw hr h
    obtain ⟨raw2, fmsgs, f1, f2, f3, f4, j1, j2, sd, h0, hf, h1, h2, h3, h4, h5, h6, h7,
      hres, hlog⟩ := run_pipeline_ok_elim oracle api_key model title context res log h
    rw [hr] at h0
    cases h0
    rw [hres]

/-- Witness for C2 at concrete replies. -/
theorem question_type_normalization_witness :
    normalize_question_type (pyStrip " Binary ") = pyUpper (pyStrip " Binary ") ∧
    normalize_question_type (pyStrip "unsure") = "NUMERIC" :=
  ⟨(question_type_normalization " Binary ").1 (by decide),
   (question_type_normalization "unsure").2.1 (by decide)⟩

/-- Claim C3: a successful run returns exactly 4 forecasts and 2 judge
feedback entries, and element `i` of each list is the completion-client
result of the `i`-th submitted call of that fan-out stage (`log` records the
submitted calls in submission order: forecasts at indices 1..4, judge calls
at 5..6). -/
theorem fanout_lengths_and_order
    (oracle : Nat → List Message → Except Err String)
    (api_key model title context : String)
    (res : ForecastResult) (log : List (List Message))
    (h : run_pipeline oracle api_key model title context = (Except.ok res, log)) :
    res.forecasts.length = 4 ∧ res.judge_feedback.length = 2 ∧
    (∀ i, i < 4 → oracle (1 + i) (log.getD (1 + i) []) = Except.ok (res.forecasts.getD i "")) ∧
    (∀ i, i < 2 → oracle (5 + i) (log.getD (5 + i) []) = Except.ok (res.judge_feedback.getD i "")) := by
  obtain ⟨raw, fmsgs, f1, f2, f3, f4, j1, j2, sd, h0, hf, h1, h2, h3, h4, h5, h6, h7,
    hres, hlog⟩ := run_pipeline_ok_elim oracle api_key model title context res log h
  subst hres
  subst hlog
  refine ⟨rfl, rfl, ?_, ?_⟩
  · intro i hi
    interval_cases i
    · exact h1
    · exact h2
    · exact h3
    · exact h4
  · intro i hi
    interval_cases i
    · exact h5
    · exact h6

/-- A fully successful test-double script. -/
def okOracle : Nat → List Message → Except Err String :=
  scriptOracle [.ok "BINARY", .ok "60%", .ok "55%", .ok "70%", .ok "65%",
    .ok "judge one", .ok "judge two", .ok "final answer"]

/-- The result of running the pipeline against `okOracle`. -/
def okResult : ForecastResult :=
  ⟨"BINARY", ["60%", "55%", "70%", "65%"], ["judge one", "judge two"], "final answer"⟩

/-- The call log of running the pipeline against `okOracle`. -/
def okLog : List (List Message) := (run_pipeline okOracle "k" "m" "t" "c").snd

/-- Witness for C3 on the `okOracle` run. -/
theorem fanout_lengths_and_order_witness :
    okResult.forecasts.length = 4 ∧ okResult.judge_feedback.length = 2 ∧
    okOracle (1 + 1) (okLog.getD (1 + 1) []) = Except.ok (okResult.forecasts.getD 1 "") := by
  obtain ⟨hl, hj, hf, _⟩ :=
    fanout_lengths_and_order okOracle "k" "m" "t" "c" okResult okLog rfl
  exact ⟨hl, hj, hf 1 (by decide)⟩

/-- Claim C4: the first failure, in await order, of any stage aborts the
pipeline: the result is that completion-client error unchanged, no partial
`ForecastResult` is returned, and the call log shows that no later-stage
call was issued (on a forecaster failure the log holds only the
classification call and the four forecaster calls — no judge, no synthesis
call). -/
theorem stage_failure_aborts
    (oracle : Nat → List Message → Except Err String)
    (api_key model title context : String) (e : Err) :
    (oracle 0 (classification_prompt title context) = Except.error e →
      run_pipeline oracle api_key model title context =
        (Except.error e, [classification_prompt title context])) ∧
    (∀ raw fmsgs,
      oracle 0 (classification_prompt title context) = Except.ok raw →
      forecaster_prompt (normalize_question_type raw) title context = Except.ok fmsgs →
      ((oracle 1 fmsgs = Except.error e →
         run_pipeline oracle api_key model title context =
           (Except.error e,
            [classification_prompt title context, fmsgs, fmsgs, fmsgs, fmsgs])) ∧
       (∀ f1, oracle 1 fmsgs = Except.ok f1 → oracle 2 fmsgs = Except.error e →
         run_pipeline oracle api_key model title context =
           (Except.error e,
            [classification_prompt title context, fmsgs, fmsgs, fmsgs, fmsgs])) ∧
       (∀ f1 f2, oracle 1 fmsgs = Except.ok f1 → oracle 2 fmsgs = Except.ok f2 →
         oracle 3 fmsgs = Except.error e →
         run_pipeline oracle api_key model title context =
           (Except.error e,
            [classification_prompt title context, fmsgs, fmsgs, fmsgs, fmsgs])) ∧
       (∀ f1 f2 f3, oracle 1 fmsgs = Except.ok f1 → oracle 2 fmsgs = Except.ok f2 →
         oracle 3 fmsgs = Except.ok f3 → oracle 4 fmsgs = Except.error e →
         run_pipeline oracle api_key model title context =
           (Except.error e,
            [classification_prompt title context, fmsgs, fmsgs, fmsgs, fmsgs])))) ∧
    (∀ raw fmsgs f1 f2 f3 f4,
      oracle 0 (classification_prompt title context) = Except.ok raw →
      forecaster_prompt (normalize_question_type raw) title context = Except.ok fmsgs →
      oracle 1 fmsgs = Except.ok f1 → oracle 2 fmsgs = Except.ok f2 →
      oracle 3 fmsgs = Except.ok f3 → oracle 4 fmsgs = Except.ok f4 →
      ((oracle 5 (judge_prompt (normalize_question_type raw) title context [f1, f2, f3, f4]) =
          Except.error e →
         run_pipeline oracle api_key model title context =
           (Except.error e,
            [classification_prompt title context, fmsgs, fmsgs, fmsgs, fmsgs,
             judge_prompt (normalize_question_type raw) title context [f1, f2, f3, f4],
             judge_prompt (normalize_question_type raw) title context [f1, f2, f3, f4]])) ∧
       (∀ j1,
         oracle 5 (judge_prompt (normalize_question_type raw) title context [f1, f2, f3, f4]) =
           Except.ok j1 →
         oracle 6 (judge_prompt (normalize_question_type raw) title context [f1, f2, f3, f4]) =
           Except.error e →
         run_pipeline oracle api_key model title context =
           (Except.error e,
            [classification_prompt title context, fmsgs, fmsgs, fmsgs, fmsgs,
             judge_prompt (normalize_question_type raw) title context [f1, f2, f3, f4],
             judge_prompt (normalize_question_type raw) title context [f1, f2, f3, f4]])))) ∧
    (∀ raw fmsgs f1 f2 f3 f4 j1 j2,
      oracle 0 (classification_prompt title context) = Except.ok raw →
      forecaster_prompt (normalize_question_type raw) title context = Except.ok fmsgs →
      oracle 1 fmsgs = Except.ok f1 → oracle 2 fmsgs = Except.ok f2 →
      oracle 3 fmsgs = Except.ok f3 → oracle 4 fmsgs = Except.ok f4 →
      oracle 5 (judge_prompt (normalize_question_type raw) title context [f1, f2, f3, f4]) =
        Except.ok j1 →
      oracle 6 (judge_prompt (normalize_question_type raw) title context [f1, f2, f3, f4]) =
        Except.ok j2 →
      oracle 7 (supreme_prompt (normalize_question_type raw) title context [f1, f2, f3, f4]
          [j1, j2]) = Except.error e →
      run_pipeline oracle api_key model title context =
        (Except.error e,
         [classification_prompt title context, fmsgs, fmsgs, fmsgs, fmsgs,
          judge_prompt (normalize_question_type raw) title context [f1, f2, f3, f4],
          judge_prompt (normalize_question_type raw) title context [f1, f2, f3, f4],
          supreme_prompt (normalize_question_type raw) title context [f1, f2, f3, f4]
            [j1, j2]])) := by
  refine ⟨?_, ?_, ?_, ?_⟩
  · intro h0
    simp [run_pipeline, h0]
  · intro raw fmsgs h0 hf
    refine ⟨?_, ?_, ?_, ?_⟩
    · intro h1
      simp [run_pipeline, h0, hf, h1]
    · intro f1 h1 h2
      simp [run_pipeline, h0, hf, h1, h2]
    · intro f1 f2 h1 h2 h3
      simp [run_pipeline, h0, hf, h1, h2, h3]
    · intro f1 f2 f3 h1 h2 h3 h4
      simp [run_pipeline, h0, hf, h1, h2, h3, h4]
  · intro raw fmsgs f1 f2 f3 f4 h0 hf h1 h2 h3 h4
    refine ⟨?_, ?_⟩
    · intro h5
      simp [run_pipeline, h0, hf, h1, h2, h3, h4, h5]
    · intro j1 h5 h6
      simp [run_pipeline, h0, hf, h1, h2, h3, h4, h5, h6]
  · intro raw fmsgs f1 f2 f3 f4 j1 j2 h0 hf h1 h2 h3 h4 h5 h6 h7
    simp [run_pipeline, h0, hf, h1, h2, h3, h4, h5, h6, h7]

/-- A test-double script whose second forecaster call fails. -/
def failOracle : Nat → List Message → Except Err String :=
  scriptOracle [.ok "BINARY", .ok "10%", .error (.requestFailed 500 "boom"),
    .ok "20%", .ok "30%", .ok "j1", .ok "j2", .ok "s"]

/-- The forecaster prompt the pipeline builds for a BINARY question with
title `t` and context `c`. -/
def binaryForecastMsgs : List Message :=
  [⟨"system",
     "You are an independent forecaster. Provide the probability that the answer is YES as a percentage between 0 and 100. Do not explain your answer."⟩,
   ⟨"user", "Question type: BINARY\nTitle: t\nContext: c"⟩]

/-- Witness for C4: with the second forecaster call failing, the pipeline
returns that error and issued no judge or synthesis call. -/
theorem stage_failure_aborts_witness :
    run_pipeline failOracle "k" "m" "t" "c" =
      (Except.error (Err.requestFailed 500 "boom"),
       [classification_prompt "t" "c", binaryForecastMsgs, binaryForecastMsgs,
        binaryForecastMsgs, binaryForecastMsgs]) :=
  ((stage_failure_aborts failOracle "k" "m" "t" "c"
      (Err.requestFailed 500 "boom")).2.1 "BINARY" binaryForecastMsgs rfl
    rfl).2.1 "10%" rfl rfl

/-- Claim C5: `forecaster_prompt` fails, with `unknownQuestionType`, exactly
when its question type is not one of NUMERIC, BINARY, MCQ; on the three
labels it succeeds; and since the orchestrator normalizes first, every
forecaster-prompt construction inside `run_pipeline` succeeds. -/
theorem forecaster_prompt_unknown_type (question_type title context : String) :
    (forecaster_prompt question_type title context =
        Except.error (Err.unknownQuestionType question_type) ↔
      ¬(question_type = "NUMERIC" ∨ question_type = "BINARY" ∨ question_type = "MCQ")) ∧
    ((question_type = "NUMERIC" ∨ question_type = "BINARY" ∨ question_type = "MCQ") →
      ∃ msgs, forecaster_prompt question_type title context = Except.ok msgs) ∧
    (∀ reply title2 context2, ∃ msgs,
      forecaster_prompt (normalize_question_type reply) title2 context2 = Except.ok msgs) := by
  have key : ∀ qt t c, (qt = "NUMERIC" ∨ qt = "BINARY" ∨ qt = "MCQ") →
      ∃ msgs, forecaster_prompt qt t c = Except.ok msgs := by
    intro qt t c h
    rcases h with h | h | h <;> subst h <;> exact ⟨_, rfl⟩
  refine ⟨⟨?_, ?_⟩, key question_type title context, ?_⟩
  · intro he hmem
    obtain ⟨msgs, hm⟩ := key question_type title context hmem
    rw [hm] at he
    cases he
  · intro hmem
    rw [not_or, not_or] at hmem
    obtain ⟨hn, hb, hm⟩ := hmem
    simp [forecaster_prompt, forecaster_task_description, hn, hb, hm]
  · intro reply title2 context2
    apply key
    simp only [normalize_question_type]
    by_cases hp : pyUpper reply = "NUMERIC" ∨ pyUpper reply = "BINARY" ∨ pyUpper reply = "MCQ"
    · rw [if_pos hp]
      exact hp
    · rw [if_neg hp]
      exact Or.inl rfl

/-- Witness for C5: a non-label fails with `unknownQuestionType`, a label
succeeds. -/
theorem forecaster_prompt_unknown_type_witness :
    forecaster_prompt "WEIRD" "t" "c" = Except.error (Err.unknownQuestionType "WEIRD") ∧
    ∃ msgs, forecaster_prompt "NUMERIC" "t" "c" = Except.ok msgs :=
  ⟨(forecaster_prompt_unknown_type "WEIRD" "t" "c").1.mpr (by decide),
   (forecaster_prompt_unknown_type "NUMERIC" "t" "c").2.1 (Or.inl rfl)⟩

/-- On a success (2xx) status, a body lacking the
first-choice-message-content shape makes `complete` fail with
`malformedResponse`. -/
theorem complete_malformed_of_none (c : LLMClient) (r : HttpResponse)
    (hs : 200 ≤ r.status ∧ r.status ≤ 299)
    (hn : firstChoiceContent r.body = none) :
    c.complete (NetOutcome.resp r) = Except.error Err.malformedResponse := by
  obtain ⟨hs1, hs2⟩ := hs
  have hes : errorStatus r.status = false := by
    simp [errorStatus]
    omega
  simp [LLMClient.complete, LLMClient.completeResp, hes, hn]

/-- On a success (2xx) status, a body holding the
first-choice-message-content shape makes `complete` return that content
stripped. -/
theorem complete_ok_of_content (c : LLMClient) (r : HttpResponse)
    (hs : 200 ≤ r.status ∧ r.status ≤ 299) (content : String)
    (hc : firstChoiceContent r.body = some content) :
    c.complete (NetOutcome.resp r) = Except.ok (pyStrip content) := by
  obtain ⟨hs1, hs2⟩ := hs
  have hes : errorStatus r.status = false := by
    simp [errorStatus]
    omega
  simp [LLMClient.complete, LLMClient.completeResp, hes, hc]

/-- On any non-2xx status — 1xx and 3xx included, since redirects are not
followed — `complete` fails with `RequestFailed` carrying the status and
body text, whatever the body holds. -/
theorem complete_requestFailed_of_error_status (c : LLMClient)
    (r : HttpResponse) (hs : r.status < 200 ∨ 300 ≤ r.status) :
    c.complete (NetOutcome.resp r) =
      Except.error (Err.requestFailed r.status r.text) := by
  have hes : errorStatus r.status = true := by
    simp [errorStatus]
    omega
  simp [LLMClient.complete, LLMClient.completeResp, hes]

/-- A response body whose first-choice content carries surrounding
whitespace. -/
def paddedBody : Json :=
  Json.obj [("choices", Json.arr [Json.obj [("message",
    Json.obj [("content", Json.str " hi ")])]])]

/-- A response body with no `choices` at all. -/
def emptyBody : Json := Json.obj []

/-- Counterexample to C6 as stated: when the shape is present the call does
not return the content verbatim — the code strips it.  With first-choice
content `" hi "` on a success status, the call returns `"hi"`, not
`" hi "`. -/
theorem complete_content_verbatim_false :
    firstChoiceContent paddedBody = some " hi " ∧
    (LLMClient.init "k" "m").complete (NetOutcome.resp ⟨200, "", paddedBody⟩) ≠
      Except.ok " hi " := by
  constructor
  · rfl
  · intro h
    have h2 : (LLMClient.init "k" "m").complete
        (NetOutcome.resp ⟨200, "", paddedBody⟩) = Except.ok "hi" := rfl
    rw [h2] at h
    injection h with h3
    exact absurd h3 (by decide)

/-- Claim C6 amended: on a success (2xx) status, a body lacking the
expected first-choice-message-content shape fails with `malformedResponse`
rather than returning a value; when the shape is present, the call returns
that content trimmed of surrounding whitespace. -/
theorem complete_malformed_detection (c : LLMClient) (r : HttpResponse)
    (hs : 200 ≤ r.status ∧ r.status ≤ 299) :
    (firstChoiceContent r.body = none →
      c.complete (NetOutcome.resp r) = Except.error Err.malformedResponse) ∧
    (∀ content, firstChoiceContent r.body = some content →
      c.complete (NetOutcome.resp r) = Except.ok (pyStrip content)) :=
  ⟨fun hn => complete_malformed_of_none c r hs hn,
   fun content hc => complete_ok_of_content c r hs content hc⟩

/-- Witness for C6 (amended) at concrete responses. -/
theorem complete_malformed_detection_witness :
    (LLMClient.init "k" "m").complete (NetOutcome.resp ⟨200, "", emptyBody⟩) =
      Except.error Err.malformedResponse ∧
    (LLMClient.init "k" "m").complete (NetOutcome.resp ⟨200, "", paddedBody⟩) =
      Except.ok "hi" :=
  ⟨(complete_malformed_detection (LLMClient.init "k" "m") ⟨200, "", emptyBody⟩
      (by decide)).1 rfl,
   (complete_malformed_detection (LLMClient.init "k" "m") ⟨200, "", paddedBody⟩
      (by decide)).2 " hi " rfl⟩

/-- Shape of the pipeline call log: the classification call alone, or
additionally four copies of one forecaster prompt, or additionally two
copies of one judge prompt, or additionally one synthesis prompt. -/
theorem run_pipeline_log_shape
    (oracle : Nat → List Message → Except Err String)
    (api_key model title context : String) :
    ∃ fmsgs jmsgs smsgs,
      (run_pipeline oracle api_key model title context).snd =
          [classification_prompt title context] ∨
      (run_pipeline oracle api_key model title context).snd =
          [classification_prompt title context, fmsgs, fmsgs, fmsgs, fmsgs] ∨
      (run_pipeline oracle api_key model title context).snd =
          [classification_prompt title context, fmsgs, fmsgs, fmsgs, fmsgs,
           jmsgs, jmsgs] ∨
      (run_pipeline oracle api_key model title context).snd =
          [classification_prompt title context, fmsgs, fmsgs, fmsgs, fmsgs,
           jmsgs, jmsgs, smsgs] := by
  cases h0 : oracle 0 (classification_prompt title context) with
  | error e => exact ⟨[], [], [], Or.inl (by simp [run_pipeline, h0])⟩
  | ok raw =>
  cases hf : forecaster_prompt (normalize_question_type raw) title context with
  | error e => exact ⟨[], [], [], Or.inl (by simp [run_pipeline, h0, hf])⟩
  | ok fmsgs =>
  cases h1 : oracle 1 fmsgs with
  | error e =>
    exact ⟨fmsgs, [], [], Or.inr (Or.inl (by simp [run_pipeline, h0, hf, h1]))⟩
  | ok f1 =>
  cases h2 : oracle 2 fmsgs with
  | error e =>
    exact ⟨fmsgs, [], [], Or.inr (Or.inl (by simp [run_pipeline, h0, hf, h1, h2]))⟩
  | ok f2 =>
  cases h3 : oracle 3 fmsgs with
  | error e =>
    exact ⟨fmsgs, [], [],
      Or.inr (Or.inl (by simp [run_pipeline, h0, hf, h1, h2, h3]))⟩
  | ok f3 =>
  cases h4 : oracle 4 fmsgs with
  | error e =>
    exact ⟨fmsgs, [], [],
      Or.inr (Or.inl (by simp [run_pipeline, h0, hf, h1, h2, h3, h4]))⟩
  | ok f4 =>
  cases h5 : oracle 5 (judge_prompt (normalize_question_type raw) title context
      [f1, f2, f3, f4]) with
  | error e =>
    exact ⟨fmsgs, judge_prompt (normalize_question_type raw) title context [f1, f2, f3, f4], [],
      Or.inr (Or.inr (Or.inl (by simp [run_pipeline, h0, hf, h1, h2, h3, h4, h5])))⟩
  | ok j1 =>
  cases h6 : oracle 6 (judge_prompt (normalize_question_type raw) title context
      [f1, f2, f3, f4]) with
  | error e =>
    exact ⟨fmsgs, judge_prompt (normalize_question_type raw) title context [f1, f2, f3, f4], [],
      Or.inr (Or.inr (Or.inl (by simp [run_pipeline, h0, hf, h1, h2, h3, h4, h5, h6])))⟩
  | ok j2 =>
  cases h7 : oracle 7 (supreme_prompt (normalize_question_type raw) title context
      [f1, f2, f3, f4] [j1, j2]) with
  | error e =>
    exact ⟨fmsgs, judge_prompt (normalize_question_type raw) title context [f1, f2, f3, f4],
      supreme_prompt (normalize_question_type raw) title context [f1, f2, f3, f4] [j1, j2],
      Or.inr (Or.inr (Or.inr (by simp [run_pipeline, h0, hf, h1, h2, h3, h4, h5, h6, h7])))⟩
  | ok sd =>
    exact ⟨fmsgs, judge_prompt (normalize_question_type raw) title context [f1, f2, f3, f4],
      supreme_prompt (normalize_question_type raw) title context [f1, f2, f3, f4] [j1, j2],
      Or.inr (Or.inr (Or.inr (by simp [run_pipeline, h0, hf, h1, h2, h3, h4, h5, h6, h7])))⟩

/-- Claim C7: the four prompt builders are deterministic — identical inputs
give identical message lists — and in any run that reached the forecast
fan-out (log length at least 5) the four forecaster calls, log entries 1–4,
carry exactly the same message list. -/
theorem prompt_builders_deterministic (question_type title context : String)
    (forecasts judge_feedback : List String) :
    classification_prompt title context = classification_prompt title context ∧
    forecaster_prompt question_type title context =
      forecaster_prompt question_type title context ∧
    judge_prompt question_type title context forecasts =
      judge_prompt question_type title context forecasts ∧
    supreme_prompt question_type title context forecasts judge_feedback =
      supreme_prompt question_type title context forecasts judge_feedback ∧
    ∀ oracle api_key model res log,
      run_pipeline oracle api_key model title context = (res, log) →
      5 ≤ log.length →
      log.getD 1 [] = log.getD 2 [] ∧ log.getD 2 [] = log.getD 3 [] ∧
        log.getD 3 [] = log.getD 4 [] := by
  refine ⟨rfl, rfl, rfl, rfl, ?_⟩
  intro oracle api_key model res log h hlen
  obtain ⟨fmsgs, jmsgs, smsgs, hs⟩ :=
    run_pipeline_log_shape oracle api_key model title context
  rw [h] at hs
  have hlog : log = [classification_prompt title context] ∨
      log = [classification_prompt title context, fmsgs, fmsgs, fmsgs, fmsgs] ∨
      log = [classification_prompt title context, fmsgs, fmsgs, fmsgs, fmsgs,
        jmsgs, jmsgs] ∨
      log = [classification_prompt title context, fmsgs, fmsgs, fmsgs, fmsgs,
        jmsgs, jmsgs, smsgs] := hs
  rcases hlog with hl | hl | hl | hl
  · rw [hl] at hlen
    simp at hlen
  · rw [hl]
    exact ⟨rfl, rfl, rfl⟩
  · rw [hl]
    exact ⟨rfl, rfl, rfl⟩
  · rw [hl]
    exact ⟨rfl, rfl, rfl⟩

/-- Witness for C7 on the `okOracle` run: the four forecaster log entries
coincide. -/
theorem prompt_builders_deterministic_witness :
    okLog.getD 1 [] = okLog.getD 2 [] ∧ okLog.getD 2 [] = okLog.getD 3 [] ∧
      okLog.getD 3 [] = okLog.getD 4 [] :=
  (prompt_builders_deterministic "BINARY" "t" "c" [] []).2.2.2.2
    okOracle "k" "m" (Except.ok okResult) okLog rfl (by decide)

/-- Claim C8: construction strips both credentials; two clients built from
credentials differing only in surrounding whitespace are equal and issue
identical requests for every message list; and `complete` returns the text
content of the first response choice stripped of surrounding whitespace. -/
theorem client_trims_credentials (k k2 m m2 : String) :
    (LLMClient.init k m).api_key = pyStrip k ∧
    (LLMClient.init k m).model = pyStrip m ∧
    (pyStrip k = pyStrip k2 → pyStrip m = pyStrip m2 →
      LLMClient.init k m = LLMClient.init k2 m2 ∧
      ∀ messages, (LLMClient.init k m).request messages =
        (LLMClient.init k2 m2).request messages) ∧
    (∀ r content, 200 ≤ r.status ∧ r.status ≤ 299 →
      firstChoiceContent r.body = some content →
      (LLMClient.init k m).complete (NetOutcome.resp r) =
        Except.ok (pyStrip content)) := by
  refine ⟨rfl, rfl, ?_, ?_⟩
  · intro hk hm
    have heq : LLMClient.init k m = LLMClient.init k2 m2 := by
      simp only [LLMClient.init, hk, hm]
    refine ⟨heq, fun messages => ?_⟩
    rw [heq]
  · intro r content hs hc
    exact complete_ok_of_content (LLMClient.init k m) r hs content hc

/-- Witness for C8: clients from padded and plain credentials coincide and
issue the same request; a padded first-choice content comes back stripped. -/
theorem client_trims_credentials_witness :
    LLMClient.init " key " " model " = LLMClient.init "key" "model" ∧
    (LLMClient.init " key " " model ").request [] =
      (LLMClient.init "key" "model").request [] ∧
    (LLMClient.init " key " " model ").complete
      (NetOutcome.resp ⟨200, "", paddedBody⟩) = Except.ok "hi" := by
  obtain ⟨hk, hm, hcl, hcc⟩ :=
    client_trims_credentials " key " "key" " model " "model"
  obtain ⟨heq, hreq⟩ := hcl (by decide) (by decide)
  exact ⟨heq, hreq [], hcc ⟨200, "", paddedBody⟩ " hi " (by decide) rfl⟩

/-- Specification-side rendering of a forecast list: the lines
`label i: item`, numbered from a given start, in list order. -/
def numberedFrom (label : String) : Nat → List String → List String
  | _, [] => []
  | i, item :: rest =>
    (label ++ " " ++ toString i ++ ": " ++ item) :: numberedFrom label (i + 1) rest

/-- The enumerate-based rendering of the source equals the numbered-lines
rendering of the specification, for every starting offset. -/
theorem map_enumFrom_numbered (label : String) (items : List String) :
    ∀ k : Nat,
      (List.enumFrom k items).map
          (fun p => label ++ " " ++ toString (p.fst + 1) ++ ": " ++ p.snd) =
        numberedFrom label (k + 1) items := by
  induction items with
  | nil => intro k; rfl
  | cons head tail ih =>
    intro k
    simp only [List.enumFrom, List.map_cons, numberedFrom]
    exact congrArg _ (ih (k + 1))

/-- Lemma: `numberedLines` renders the items as `label 1: ...` through
`label n: ...` joined by newlines, in list order. -/
theorem numberedLines_eq (label : String) (items : List String) :
    numberedLines label items =
      String.intercalate "\n" (numberedFrom label 1 items) := by
  simp only [numberedLines, List.enum]
  rw [map_enumFrom_numbered]

/-- Claim C9: for every question type, title, context and forecast list,
the judge prompt's user message embeds the forecasts rendered as the lines
`Forecaster 1: ...` through `Forecaster n: ...` joined by newlines, in the
order of the input list. -/
theorem judge_prompt_renders_forecasts (question_type title context : String)
    (forecasts : List String) :
    judge_prompt question_type title context forecasts =
      [⟨"system",
         "You are a judge evaluating multiple forecasts. " ++
           "Assess reasoning quality, identify inconsistencies or outliers, and suggest adjustments. " ++
           "Do not provide a final forecast."⟩,
       ⟨"user",
         "Question type: " ++ question_type ++ "\nTitle: " ++ title ++
           "\nContext: " ++ context ++ "\nForecasts:\n" ++
           String.intercalate "\n" (numberedFrom "Forecaster" 1 forecasts)⟩] := by
  simp only [judge_prompt, numberedLines_eq]

/-- Claim C10: a successful run uses one normalized question type
consistently — the type embedded in the four forecaster prompts, both judge
prompts and the synthesis prompt is the `question_type` of the returned
result, and the judge and synthesis prompts embed exactly the returned
forecast and judge-feedback lists. -/
theorem pipeline_consistency
    (oracle : Nat → List Message → Except Err String)
    (api_key model title context : String)
    (res : ForecastResult) (log : List (List Message))
    (h : run_pipeline oracle api_key model title context = (Except.ok res, log)) :
    ∃ fmsgs, forecaster_prompt res.question_type title context = Except.ok fmsgs ∧
      log = [classification_prompt title context, fmsgs, fmsgs, fmsgs, fmsgs,
        judge_prompt res.question_type title context res.forecasts,
        judge_prompt res.question_type title context res.forecasts,
        supreme_prompt res.question_type title context res.forecasts
          res.judge_feedback] := by
  obtain ⟨raw, fmsgs, f1, f2, f3, f4, j1, j2, sd, h0, hf, h1, h2, h3, h4, h5, h6, h7,
    hres, hlog⟩ := run_pipeline_ok_elim oracle api_key model title context res log h
  subst hres
  exact ⟨fmsgs, hf, hlog⟩

/-- Witness for C10 on the `okOracle` run. -/
theorem pipeline_consistency_witness :
    forecaster_prompt okResult.question_type "t" "c" =
      Except.ok binaryForecastMsgs ∧
    okLog = [classification_prompt "t" "c", binaryForecastMsgs,
      binaryForecastMsgs, binaryForecastMsgs, binaryForecastMsgs,
      judge_prompt okResult.question_type "t" "c" okResult.forecasts,
      judge_prompt okResult.question_type "t" "c" okResult.forecasts,
      supreme_prompt okResult.question_type "t" "c" okResult.forecasts
        okResult.judge_feedback] := by
  obtain ⟨fmsgs, hf, hlog⟩ :=
    pipeline_consistency okOracle "k" "m" "t" "c" okResult okLog rfl
  have h2 : forecaster_prompt okResult.question_type "t" "c" =
      Except.ok binaryForecastMsgs := rfl
  rw [h2] at hf
  injection hf with hfm
  rw [← hfm] at hlog
  exact ⟨h2, hlog⟩
